import Mathlib

/-!
# Verification of the Jzero astrology engine core

Shallow embedding of the numeric core of the Jzero repository
(Julian-day conversion, ΔT model, Kepler propagation, lunar series,
ephemeris interpolation, house-system geometry, chart composition),
with theorems settling the specification claims about it.

Numbers are modelled by `ℚ` (the JavaScript source computes with IEEE
doubles; claims here are about the exact mathematical algorithm).
Transcendental library calls (`Math.sin`, `Math.cos`, `Math.atan2`,
`Math.sqrt`, `Math.PI`) are abstracted by an explicit `Trig` record of
rational-valued functions, so every definition stays executable; no claim
below depends on analytic properties of those functions.
-/

/-- Truncation toward zero, the rounding used by the JavaScript `%`
operator on numbers. -/
def truncQ (x : ℚ) : ℤ :=
  if 0 ≤ x then ⌊x⌋ else ⌈x⌉

/-- The JavaScript remainder operator `x % y`: the result has the sign of
the dividend `x`. -/
def jsMod (x y : ℚ) : ℚ :=
  x - y * truncQ (x / y)

/-- `normalizeAngle` from `src/julianDay.js` lines 153-157:
`normalized = angle % 360; if (normalized < 0) normalized += 360`. -/
def normalizeAngle (angle : ℚ) : ℚ :=
  let normalized := jsMod angle 360
  if normalized < 0 then normalized + 360 else normalized

/-- `julianCenturies` from `src/julianDay.js`: `(jd - 2451545.0) / 36525.0`. -/
def julianCenturies (jd : ℚ) : ℚ :=
  (jd - 2451545) / 36525

/-- A house cusp record as produced by the house-system calculator
(`houses.js`): `{ cusp, longitude, sign, system }`. -/
structure House where
  cusp : ℕ
  longitude : ℚ
  sign : ℤ
  system : String
  deriving DecidableEq, Inhabited, Repr

/-- The local helper `getArc(start, end)` inside `calculatePorphyryHouses`
(`houses.js` lines 106-110): `arc = end - start; if (arc < 0) arc += 360`. -/
def getArc (s e : ℚ) : ℚ :=
  let arc := e - s
  if arc < 0 then arc + 360 else arc

/-- Insertion step for the final `houses.sort((a, b) => a.cusp - b.cusp)`
(cusp numbers are pairwise distinct, so any sort gives the same list). -/
def insertByCusp (h : House) : List House → List House
  | [] => [h]
  | x :: xs => if h.cusp ≤ x.cusp then h :: x :: xs else x :: insertByCusp h xs

/-- Sort a house list ascending by cusp number, modelling
`houses.sort((a, b) => a.cusp - b.cusp)`. -/
def sortByCusp : List House → List House
  | [] => []
  | x :: xs => insertByCusp x (sortByCusp xs)

/-- `calculatePorphyryHouses` from `houses.js` lines 100-137, verbatim:
quadrant 1 (ASC→MC) uses `arc1`, quadrant 2 (MC→DSC) uses `arc2`,
quadrant 3 (DSC→IC) uses `arc3`, and quadrant 4 (IC→ASC) re-uses `arc3`. -/
def calculatePorphyryHouses (ascendant mc : ℚ) : List House :=
  let descendant := normalizeAngle (ascendant + 180)
  let ic := normalizeAngle (mc + 180)
  let arc1 := getArc ascendant mc / 3
  let arc2 := getArc mc descendant / 3
  let arc3 := getArc descendant ic / 3
  sortByCusp
    [ { cusp := 1, longitude := ascendant, sign := ⌊ascendant / 30⌋, system := "Porphyry" },
      { cusp := 12, longitude := normalizeAngle (ascendant + arc1 * 2),
        sign := ⌊normalizeAngle (ascendant + arc1 * 2) / 30⌋, system := "Porphyry" },
      { cusp := 11, longitude := normalizeAngle (ascendant + arc1),
        sign := ⌊normalizeAngle (ascendant + arc1) / 30⌋, system := "Porphyry" },
      { cusp := 10, longitude := mc, sign := ⌊mc / 30⌋, system := "Porphyry" },
      { cusp := 9, longitude := normalizeAngle (mc + arc2 * 2),
        sign := ⌊normalizeAngle (mc + arc2 * 2) / 30⌋, system := "Porphyry" },
      { cusp := 8, longitude := normalizeAngle (mc + arc2),
        sign := ⌊normalizeAngle (mc + arc2) / 30⌋, system := "Porphyry" },
      { cusp := 7, longitude := descendant, sign := ⌊descendant / 30⌋, system := "Porphyry" },
      { cusp := 6, longitude := normalizeAngle (descendant + arc3 * 2),
        sign := ⌊normalizeAngle (descendant + arc3 * 2) / 30⌋, system := "Porphyry" },
      { cusp := 5, longitude := normalizeAngle (descendant + arc3),
        sign := ⌊normalizeAngle (descendant + arc3) / 30⌋, system := "Porphyry" },
      { cusp := 4, longitude := ic, sign := ⌊ic / 30⌋, system := "Porphyry" },
      { cusp := 3, longitude := normalizeAngle (ic + arc3 * 2),
        sign := ⌊normalizeAngle (ic + arc3 * 2) / 30⌋, system := "Porphyry" },
      { cusp := 2, longitude := normalizeAngle (ic + arc3),
        sign := ⌊normalizeAngle (ic + arc3) / 30⌋, system := "Porphyry" } ]

/-- The per-pair membership test inside `getPlanetHouse` (`houses.js`
lines 199-207): normal interval test when `currentCusp < nextCusp`,
wrap-around test otherwise. -/
def memHouseB (currentCusp nextCusp lon : ℚ) : Bool :=
  if currentCusp < nextCusp then
    decide (currentCusp ≤ lon ∧ lon < nextCusp)
  else
    decide (currentCusp ≤ lon ∨ lon < nextCusp)

/-- The scan `for (let i = 0; i < houses.length; i++)` of `getPlanetHouse`,
written with explicit fuel so it is structurally recursive; `scanHouses
houses lon i (houses.length - i)` visits `i, i+1, …` in order and returns
the first index whose interval contains `lon`. -/
def scanHouses (houses : List House) (lon : ℚ) : ℕ → ℕ → Option ℕ
  | _, 0 => none
  | i, fuel + 1 =>
    if memHouseB ((houses.getD i default).longitude)
        ((houses.getD ((i + 1) % houses.length) default).longitude) lon then
      some i
    else
      scanHouses houses lon (i + 1) fuel

/-- `getPlanetHouse` from `houses.js` lines 188-211: normalize the planet
longitude, scan circularly-adjacent cusp pairs, return the first matching
house's cusp number, defaulting to house 1. -/
def getPlanetHouse (planetLongitude : ℚ) (houses : List House) : ℕ :=
  let lon := normalizeAngle planetLongitude
  match scanHouses houses lon 0 houses.length with
  | some i => (houses.getD i default).cusp
  | none => 1

/-- C1: `calculatePorphyryHouses` does NOT use quadrant 4's own arc width.
At ascendant 0°, mc 100° (so desc = 180°, ic = 280°) the code places the
2nd cusp at `ic + getArc(desc, ic)/3 = 280 + 100/3 = 940/3 ≈ 313.33°`,
re-using quadrant 3's arc, whereas splitting quadrant 4 (IC→ASC) by its
own arc width as the claim states would put it at
`ic + getArc(ic, asc)/3 = 280 + 80/3 = 920/3 ≈ 306.67°`. -/
theorem porphyry_quadrant4_reuses_quadrant3_arc :
    ((calculatePorphyryHouses 0 100).find? (fun h => h.cusp == 2)).map House.longitude
        = some (normalizeAngle (280 + getArc 180 280 / 3))
      ∧ normalizeAngle (280 + getArc 180 280 / 3) = 940 / 3
      ∧ normalizeAngle (280 + getArc 280 0 / 3) = 920 / 3
      ∧ (940 / 3 : ℚ) ≠ 920 / 3 := by
  norm_num [calculatePorphyryHouses, sortByCusp, insertByCusp, normalizeAngle, jsMod, truncQ,
    getArc, List.find?]
  exact ⟨_, rfl, rfl⟩

/-- `calculateDeltaT` from `time-corrections.js` lines 12-75: the
Espenak-Meeus 2006 piecewise polynomial for ΔT = TT − UT in seconds,
reproduced segment by segment (the unused top-level `t` of the source is
omitted; each branch introduces its own local variable as the source does). -/
def calculateDeltaT (year : ℚ) : ℚ :=
  let y := year
  if y < -500 then
    let u := (y - 1820) / 100;
    -20 + 32 * u * u
  else if y < 500 then
    let u := y / 100;
    10583.6 - 1014.41 * u + 33.78311 * u * u - 5.952053 * u * u * u
      - 0.1798452 * u * u * u * u + 0.022174192 * u * u * u * u * u
      + 0.0090316521 * u * u * u * u * u * u
  else if y < 1600 then
    let u := (y - 1000) / 100;
    1574.2 - 556.01 * u + 71.23472 * u * u + 0.319781 * u * u * u
      - 0.8503463 * u * u * u * u - 0.005050998 * u * u * u * u * u
      + 0.0083572073 * u * u * u * u * u * u
  else if y < 1700 then
    let t := y - 1600;
    120 - 0.9808 * t - 0.01532 * t * t + t * t * t / 7129
  else if y < 1800 then
    let t := y - 1700;
    8.83 + 0.1603 * t - 0.0059285 * t * t + 0.00013336 * t * t * t
      - t * t * t * t / 1174000
  else if y < 1860 then
    let t := y - 1800;
    13.72 - 0.332447 * t + 0.0068612 * t * t + 0.0041116 * t * t * t
      - 0.00037436 * t * t * t * t + 0.0000121272 * t * t * t * t * t
      - 0.0000001699 * t * t * t * t * t * t
      + 0.000000000875 * t * t * t * t * t * t * t
  else if y < 1900 then
    let t := y - 1860;
    7.62 + 0.5737 * t - 0.251754 * t * t + 0.01680668 * t * t * t
      - 0.0004473624 * t * t * t * t + t * t * t * t * t / 233174
  else if y < 1920 then
    let t := y - 1900;
    -2.79 + 1.494119 * t - 0.0598939 * t * t + 0.0061966 * t * t * t
      - 0.000197 * t * t * t * t
  else if y < 1941 then
    let t := y - 1920;
    21.20 + 0.84493 * t - 0.076100 * t * t + 0.0020936 * t * t * t
  else if y < 1961 then
    let t := y - 1950;
    29.07 + 0.407 * t - t * t / 233 + t * t * t / 2547
  else if y < 1986 then
    let t := y - 1975;
    45.45 + 1.067 * t - t * t / 260 - t * t * t / 718
  else if y < 2005 then
    let t := y - 2000;
    63.86 + 0.3345 * t - 0.060374 * t * t + 0.0017275 * t * t * t
      + 0.000651814 * t * t * t * t + 0.00002373599 * t * t * t * t * t
  else if y < 2050 then
    let t := y - 2000;
    62.92 + 0.32217 * t + 0.005589 * t * t
  else if y < 2150 then
    -20 + 32 * ((y - 1820) / 100) * ((y - 1820) / 100)
      - 0.5628 * (2150 - y)
  else
    let u := (y - 1820) / 100;
    -20 + 32 * u * u

/-- C6 counterexample: at the segment boundary year 1600 the ΔT polynomial
jumps by ≈ 0.2516 s, which is NOT below 0.1 s: the segment just below 1600
evaluated at 1599.999 and the segment starting at 1600 evaluated at 1600
differ by at least 0.1 s. -/
theorem deltaT_not_continuous_at_1600 :
    ¬ |calculateDeltaT (1600 - 1 / 1000) - calculateDeltaT 1600| < 1 / 10 := by
  norm_num [calculateDeltaT, abs_lt, le_abs]

/-- C6 amended: the ΔT polynomial jump at each of the 14 internal segment
boundaries is below 0.1 s except at 1600 and 1700, where it is ≈ 0.252 s
and ≈ 0.162 s respectively (still below 0.3 s). -/
theorem deltaT_boundary_jumps :
    |calculateDeltaT (-500 - 1 / 1000) - calculateDeltaT (-500)| < 1 / 10
      ∧ |calculateDeltaT (500 - 1 / 1000) - calculateDeltaT 500| < 1 / 10
      ∧ |calculateDeltaT (1600 - 1 / 1000) - calculateDeltaT 1600| < 3 / 10
      ∧ |calculateDeltaT (1700 - 1 / 1000) - calculateDeltaT 1700| < 3 / 10
      ∧ |calculateDeltaT (1800 - 1 / 1000) - calculateDeltaT 1800| < 1 / 10
      ∧ |calculateDeltaT (1860 - 1 / 1000) - calculateDeltaT 1860| < 1 / 10
      ∧ |calculateDeltaT (1900 - 1 / 1000) - calculateDeltaT 1900| < 1 / 10
      ∧ |calculateDeltaT (1920 - 1 / 1000) - calculateDeltaT 1920| < 1 / 10
      ∧ |calculateDeltaT (1941 - 1 / 1000) - calculateDeltaT 1941| < 1 / 10
      ∧ |calculateDeltaT (1961 - 1 / 1000) - calculateDeltaT 1961| < 1 / 10
      ∧ |calculateDeltaT (1986 - 1 / 1000) - calculateDeltaT 1986| < 1 / 10
      ∧ |calculateDeltaT (2005 - 1 / 1000) - calculateDeltaT 2005| < 1 / 10
      ∧ |calculateDeltaT (2050 - 1 / 1000) - calculateDeltaT 2050| < 1 / 10
      ∧ |calculateDeltaT (2150 - 1 / 1000) - calculateDeltaT 2150| < 1 / 10 := by
  norm_num [calculateDeltaT, abs_lt, le_abs]

/-- The transcendental `Math` library functions used by the source
(`Math.sin`, `Math.cos`, `Math.atan2`, `Math.sqrt`, `Math.PI`), abstracted
as an arbitrary rational-valued oracle: no claim below depends on their
analytic properties. -/
structure Trig where
  sin : ℚ → ℚ
  cos : ℚ → ℚ
  atan2 : ℚ → ℚ → ℚ
  sqrt : ℚ → ℚ
  pi : ℚ

/-- `degreesToRadians` from `src/julianDay.js`: `degrees * Math.PI / 180`. -/
def degreesToRadians (tr : Trig) (degrees : ℚ) : ℚ :=
  degrees * tr.pi / 180

/-- `radiansToDegrees` from `src/julianDay.js`: `radians * 180 / Math.PI`. -/
def radiansToDegrees (tr : Trig) (radians : ℚ) : ℚ :=
  radians * 180 / tr.pi

/-- The Newton-Raphson loop body of `solveKepler` (`planets.js` lines
408-423), with the `for (let i = 0; i < 30; i++)` loop expressed through a
fuel argument: update `E -= dE`, stop early once `|dE| < 1e-8`. -/
def solveKeplerGo (tr : Trig) (M e : ℚ) : ℚ → ℕ → ℚ
  | E, 0 => E
  | E, fuel + 1 =>
    let dE := (E - e * tr.sin E - M) / (1 - e * tr.cos E)
    let E' := E - dE
    if |dE| < 1 / 100000000 then E' else solveKeplerGo tr M e E' fuel

/-- `solveKepler` from `planets.js`: Newton-Raphson with initial guess
`E = M`, tolerance `1e-8`, at most 30 iterations. -/
def solveKepler (tr : Trig) (M e : ℚ) : ℚ :=
  solveKeplerGo tr M e M 30

/-- C7: with zero eccentricity the Newton-Raphson iteration applies no
correction: the first step computes `dE = (M - 0·sin M - M)/(1 - 0·cos M)
= 0`, hits the tolerance test and returns `M` exactly, for every mean
anomaly `M` and every interpretation of `sin`/`cos`. -/
theorem solveKepler_zero_eccentricity (tr : Trig) (M : ℚ) :
    solveKepler tr M 0 = M := by
  simp [solveKepler, solveKeplerGo]

/-- The per-planet orbital constants record of `planets.js`
(`PLANETARY_CONSTANTS`); fields that some entries lack (the Moon has no
`a`, `e`, `i`, `omega`, `pi`) are `Option`-valued. -/
structure PlanetConstants where
  L0 : ℚ
  L1 : ℚ
  n : ℚ
  M0 : ℚ
  a : Option ℚ := none
  e : Option ℚ := none
  i : Option ℚ := none
  omega : Option ℚ := none
  pi : Option ℚ := none
  color : String

/-- The `Sun` entry of `PLANETARY_CONSTANTS` (`planets.js`). -/
def sunConstants : PlanetConstants :=
  { L0 := 280.46646, L1 := 36000.76983, n := 0.9856473602, M0 := 357.52911,
    a := some 1.0, e := some 0.01671022, i := some 0.0, omega := some 0.0,
    pi := some 102.94719, color := "#FDB813" }

/-- The `Mercury` entry of `PLANETARY_CONSTANTS` (`planets.js`). -/
def mercuryConstants : PlanetConstants :=
  { L0 := 252.25084, L1 := 149472.67411175, n := 4.0923387847, M0 := 174.79439,
    a := some 0.38709843, e := some 0.20563069, i := some 7.00487,
    omega := some 48.33167, pi := some 77.45645, color := "#97979F" }

/-- The `Venus` entry of `PLANETARY_CONSTANTS` (`planets.js`). -/
def venusConstants : PlanetConstants :=
  { L0 := 181.97973, L1 := 58517.81538729, n := 1.6021304692, M0 := 50.44675,
    a := some 0.72333199, e := some 0.00677323, i := some 3.39471,
    omega := some 76.68069, pi := some 131.53298, color := "#FFC649" }

/-- The `Moon` entry of `PLANETARY_CONSTANTS` (`planets.js` lines 285-291):
it has only `L0`, `L1`, `n`, `M0` and a display color — no `a`, `e`, `i`,
`omega`, `pi`. -/
def moonConstants : PlanetConstants :=
  { L0 := 218.3164477, L1 := 481267.88123421, n := 13.1763965268,
    M0 := 134.9633964, color := "#C0C0C0" }

/-- The `Mars` entry of `PLANETARY_CONSTANTS` (`planets.js`). -/
def marsConstants : PlanetConstants :=
  { L0 := 355.45332, L1 := 19140.29934243, n := 0.5240328362, M0 := 19.41248,
    a := some 1.52366231, e := some 0.09341233, i := some 1.85061,
    omega := some 49.57854, pi := some 336.04084, color := "#DC143C" }

/-- The `Jupiter` entry of `PLANETARY_CONSTANTS` (`planets.js`). -/
def jupiterConstants : PlanetConstants :=
  { L0 := 34.40438, L1 := 3034.74612775, n := 0.0830868207, M0 := 19.65053,
    a := some 5.20336301, e := some 0.04839266, i := some 1.30530,
    omega := some 100.55615, pi := some 14.75385, color := "#F4A460" }

/-- The `Saturn` entry of `PLANETARY_CONSTANTS` (`planets.js`). -/
def saturnConstants : PlanetConstants :=
  { L0 := 49.94432, L1 := 1222.49362201, n := 0.0334700513, M0 := 317.51238,
    a := some 9.53707032, e := some 0.05415060, i := some 2.48446,
    omega := some 113.71504, pi := some 92.43194, color := "#DAA520" }

/-- The `Uranus` entry of `PLANETARY_CONSTANTS` (`planets.js`). -/
def uranusConstants : PlanetConstants :=
  { L0 := 313.23218, L1 := 428.48202785, n := 0.0117311986, M0 := 142.26794,
    a := some 19.19126393, e := some 0.04716771, i := some 0.76986,
    omega := some 74.22988, pi := some 170.96424, color := "#4FD0E0" }

/-- The `Neptune` entry of `PLANETARY_CONSTANTS` (`planets.js`). -/
def neptuneConstants : PlanetConstants :=
  { L0 := 304.88003, L1 := 218.45945325, n := 0.0059810939, M0 := 259.90868,
    a := some 30.06896348, e := some 0.00858587, i := some 1.76917,
    omega := some 131.72169, pi := some 44.97135, color := "#4169E1" }

/-- The `Pluto` entry of `PLANETARY_CONSTANTS` (`planets.js`). -/
def plutoConstants : PlanetConstants :=
  { L0 := 238.92881, L1 := 145.20780515, n := 0.0039755730, M0 := 14.86205,
    a := some 39.48, e := some 0.24882, i := some 17.14,
    omega := some 110.30, pi := some 224.07, color := "#8B4513" }

/-- `PLANETARY_CONSTANTS` from `planets.js` lines 248-364, as a lookup
from the planet-name key; an absent key yields `none` (JS `undefined`). -/
def PLANETARY_CONSTANTS : String → Option PlanetConstants
  | "Sun" => some sunConstants
  | "Mercury" => some mercuryConstants
  | "Venus" => some venusConstants
  | "Moon" => some moonConstants
  | "Mars" => some marsConstants
  | "Jupiter" => some jupiterConstants
  | "Saturn" => some saturnConstants
  | "Uranus" => some uranusConstants
  | "Neptune" => some neptuneConstants
  | "Pluto" => some plutoConstants
  | _ => none

/-- The JavaScript idiom `x || d` on an optionally-present numeric field:
`undefined` and `0` are falsy and yield the default `d`; any other number
is returned unchanged. -/
def jsOrElse (x : Option ℚ) (d : ℚ) : ℚ :=
  match x with
  | none => d
  | some v => if v = 0 then d else v

/-- The zodiac-sign names of `ZODIAC_SIGNS` (`planets.js` lines 367-380). -/
def ZODIAC_SIGNS : List String :=
  ["Aries", "Taurus", "Gemini", "Cancer", "Leo", "Virgo",
   "Libra", "Scorpio", "Sagittarius", "Capricorn", "Aquarius", "Pisces"]

/-- Result of `longitudeToZodiac` (`planets.js` lines 387-400); the
`symbol`/`formatted` display strings are omitted. -/
structure ZodiacInfo where
  longitude : ℚ
  sign : String
  degree : ℚ
  deriving DecidableEq, Repr

/-- `longitudeToZodiac` from `planets.js`: normalize, take the 30°-wide
sign index and the degree within the sign. -/
def longitudeToZodiac (longitude : ℚ) : ZodiacInfo :=
  let normalizedLon := normalizeAngle longitude
  let signIndex := ⌊normalizedLon / 30⌋
  let degree := jsMod normalizedLon 30
  { longitude := normalizedLon, sign := ZODIAC_SIGNS.getD signIndex.toNat "", degree := degree }

/-- The planet-position record returned by `calculatePlanetPosition`
(`planets.js` lines 473-480): `{planet, longitude, meanAnomaly, ...zodiac,
julianDay, color}` (display strings omitted). -/
structure PlanetPosition where
  planet : String
  longitude : ℚ
  meanAnomaly : ℚ
  sign : String
  degree : ℚ
  julianDay : ℚ
  color : String
  deriving DecidableEq, Repr

/-- The body of `calculatePlanetPosition` (`planets.js` lines 437-480)
after the constants lookup, with the eccentricity and argument-of-
perihelion values passed explicitly (the caller passes the `||`-defaulted
values, mirroring `constants.e || 0.0167` and `constants.pi || 0`).
The mean longitude `L` is computed but unused in the source, as here. -/
def keplerPositionCore (tr : Trig) (planet : String) (c : PlanetConstants) (jd eUsed piv : ℚ) :
    PlanetPosition :=
  let T := julianCenturies jd
  let daysSinceJ2000 := jd - 2451545
  let _L := normalizeAngle (c.L0 + c.L1 * T)
  let M := normalizeAngle (c.M0 + c.n * daysSinceJ2000)
  let M_rad := degreesToRadians tr M
  let E := solveKepler tr M_rad eUsed
  let nu := 2 * tr.atan2 (tr.sqrt (1 + eUsed) * tr.sin (E / 2))
      (tr.sqrt (1 - eUsed) * tr.cos (E / 2))
  let lambda := normalizeAngle (radiansToDegrees tr nu + piv)
  let zodiac := longitudeToZodiac lambda
  { planet := planet, longitude := zodiac.longitude, meanAnomaly := M,
    sign := zodiac.sign, degree := zodiac.degree, julianDay := jd, color := c.color }

/-- `calculatePlanetPosition` from `planets.js` lines 431-481: `none`
models the thrown `Unknown planet` error; otherwise the Kepler position is
computed with `e := constants.e || 0.0167` and `pi := constants.pi || 0`. -/
def calculatePlanetPosition (tr : Trig) (planet : String) (jd : ℚ) : Option PlanetPosition :=
  match PLANETARY_CONSTANTS planet with
  | none => none
  | some c => some (keplerPositionCore tr planet c jd (jsOrElse c.e 0.0167) (jsOrElse c.pi 0))

/-- C10: for a body whose constants entry lacks `e` or has `e =  0` (the
Moon lacks both `e` and `pi`), `calculatePlanetPosition` does not fail: it
returns the position computed with the default eccentricity `0.0167` (and
argument of perihelion `constants.pi || 0`). -/
theorem calculatePlanetPosition_defaults_eccentricity (tr : Trig) (planet : String)
    (c : PlanetConstants) (jd : ℚ) (hc : PLANETARY_CONSTANTS planet = some c)
    (he : c.e = none ∨ c.e = some 0) :
    calculatePlanetPosition tr planet jd
      = some (keplerPositionCore tr planet c jd 0.0167 (jsOrElse c.pi 0)) := by
  simp only [calculatePlanetPosition, hc]
  rcases he with h | h <;> simp [jsOrElse, h]

/-- A concrete trig oracle for witnesses. -/
def zeroTrig : Trig :=
  { sin := fun _ => 0, cos := fun _ => 0, atan2 := fun _ _ => 0, sqrt := fun _ => 0, pi := 0 }

/-- Witness for C10: the Moon's entry has no `e`, and
`calculatePlanetPosition` at J2000 succeeds with the default eccentricity. -/
theorem calculatePlanetPosition_defaults_eccentricity_witness :
    calculatePlanetPosition zeroTrig "Moon" 2451545
      = some (keplerPositionCore zeroTrig "Moon" moonConstants 2451545 0.0167
          (jsOrElse moonConstants.pi 0)) :=
  calculatePlanetPosition_defaults_eccentricity zeroTrig "Moon" moonConstants 2451545 rfl
    (Or.inl rfl)

/-- `calculateGMST` from `src/julianDay.js` lines 123-134. -/
def calculateGMST (jd : ℚ) : ℚ :=
  let T := julianCenturies jd
  let gmst := 280.46061837 + 360.98564736629 * (jd - 2451545)
    + 0.000387933 * T * T - T * T * T / 38710000
  normalizeAngle gmst

/-- `calculateLST` from `src/julianDay.js` lines 142-146. -/
def calculateLST (jd longitude : ℚ) : ℚ :=
  normalizeAngle (calculateGMST jd + longitude)

/-- The optional observer parameters of `calculateMoonPosition`
(`moon-calculator.js`): `{ latitude, longitude, elevation }`, each possibly
`undefined`. -/
structure MoonOptions where
  latitude : Option ℚ := none
  longitude : Option ℚ := none
  elevation : Option ℚ := none

/-- The `observerLocation` record attached to the Moon result when an
observer location is supplied. -/
structure ObserverLocation where
  latitude : ℚ
  longitude : ℚ
  elevation : ℚ
  deriving DecidableEq, Repr

/-- The mean-argument block of the Moon result (`meanArguments`). -/
structure MoonMeanArguments where
  D : ℚ
  M : ℚ
  M_prime : ℚ
  F : ℚ
  deriving DecidableEq, Repr

/-- The record returned by `calculateMoonPosition`
(`moon-calculator.js` lines 82-95 plus the optional fields added at lines
112-117). -/
structure MoonPosition where
  longitude : ℚ
  meanLongitude : ℚ
  correction : ℚ
  meanArguments : MoonMeanArguments
  method : String
  parallaxCorrected : Bool
  parallaxNote : Option String := none
  observerLocation : Option ObserverLocation := none

/-- `calculateMoonPosition` from `moon-calculator.js` lines 18-121:
J2000 mean longitude plus ten leading ELP2000 periodic terms; when both an
observer latitude and longitude are supplied, an LST is computed
(`calculateLST`, discarded like in the source, which only notes that a
full parallax correction would need RA/Dec) and the advisory
`parallaxNote`/`observerLocation` metadata is attached — the returned
`longitude` itself is computed before that branch. -/
def calculateMoonPosition (tr : Trig) (jd : ℚ) (options : MoonOptions) : MoonPosition :=
  let T := julianCenturies jd
  let L_moon := normalizeAngle (218.3164477 + 481267.88123421 * T)
  let D := normalizeAngle (297.8501921 + 445267.1114034 * T - 0.0018819 * T * T
    + T * T * T / 545868 - T * T * T * T / 113065000)
  let M := normalizeAngle (357.5291092 + 35999.0502909 * T - 0.0001536 * T * T
    + T * T * T / 24490000)
  let M_prime := normalizeAngle (134.9633964 + 477198.8675055 * T + 0.0087414 * T * T
    + T * T * T / 69699 - T * T * T * T / 14712000)
  let F := normalizeAngle (93.2720950 + 483202.0175233 * T - 0.0036539 * T * T
    - T * T * T / 3526000 + T * T * T * T / 863310000)
  let D_rad := degreesToRadians tr D
  let M_rad := degreesToRadians tr M
  let M_prime_rad := degreesToRadians tr M_prime
  let F_rad := degreesToRadians tr F
  let correction := 6.288774 * tr.sin M_prime_rad
    + 1.274027 * tr.sin (2 * D_rad - M_prime_rad)
    + 0.658314 * tr.sin (2 * D_rad)
    + 0.213618 * tr.sin (2 * M_prime_rad)
    - 0.185116 * tr.sin M_rad
    - 0.114332 * tr.sin (2 * F_rad)
    + 0.058793 * tr.sin (2 * (D_rad - M_prime_rad))
    + 0.057066 * tr.sin (2 * D_rad - M_rad - M_prime_rad)
    + 0.053322 * tr.sin (2 * D_rad + M_prime_rad)
    + 0.045758 * tr.sin (2 * D_rad - M_rad)
  let longitude := normalizeAngle (L_moon + correction)
  let result : MoonPosition :=
    { longitude := longitude, meanLongitude := L_moon, correction := correction,
      meanArguments := { D := D, M := M, M_prime := M_prime, F := F },
      method := "J2000-ELP2000-simplified", parallaxCorrected := false }
  if options.latitude.isSome && options.longitude.isSome then
    let _lst := calculateLST jd (options.longitude.getD 0)
    { result with
      parallaxNote := some "Parallax correction available but requires full coordinate transformation",
      observerLocation := some
        { latitude := options.latitude.getD 0, longitude := options.longitude.getD 0,
          elevation := jsOrElse options.elevation 0 } }
  else
    result

/-- C9: the returned Moon longitude never depends on the observer-location
options: two calls differing only in `options` produce the same
`longitude` field (the location affects only the advisory metadata). -/
theorem calculateMoonPosition_longitude_ignores_observer (tr : Trig) (jd : ℚ)
    (o o' : MoonOptions) :
    (calculateMoonPosition tr jd o).longitude = (calculateMoonPosition tr jd o').longitude := by
  simp only [calculateMoonPosition]
  split <;> split <;> rfl

/-- A processed ephemeris record as produced by `loadEphemerisData`
(`ephemeris-browser.js` lines 71-95): `{ jd, longitude, sign, degInSign,
date }`. The `db` parameters below stand for the per-body processed
(sorted, cached) tables. -/
structure EphSample where
  jd : ℚ
  longitude : ℚ
  sign : String
  degInSign : ℚ
  date : String
  deriving DecidableEq, Inhabited, Repr

/-- The position record returned by `getEphemerisPosition`; the
non-interpolated fallback carries `sign`/`degInSign`, the interpolated
result carries the bracketing `beforeJD`/`afterJD`. -/
structure EphPosition where
  longitude : ℚ
  interpolated : Bool
  sign : Option String := none
  degInSign : Option ℚ := none
  beforeJD : Option ℚ := none
  afterJD : Option ℚ := none
  deriving DecidableEq, Repr

/-- `lerp` from `ephemeris-browser.js` lines 107-110. -/
def lerp (x0 y0 x1 y1 x : ℚ) : ℚ :=
  if x1 = x0 then y0 else y0 + (y1 - y0) * ((x - x0) / (x1 - x0))

/-- The bracketing scan of `getEphemerisPosition` (lines 135-141): the
first adjacent pair with `data[i].jd ≤ jd ≤ data[i+1].jd`. -/
def findBracket (jd : ℚ) : List EphSample → Option (EphSample × EphSample)
  | a :: b :: rest =>
    if a.jd ≤ jd ∧ b.jd ≥ jd then some (a, b) else findBracket jd (b :: rest)
  | _ => none

/-- The `data.reduce` fallback of `getEphemerisPosition` (lines 145-147):
the sample nearest to `jd` in `|Δjd|`, keeping the earlier one on ties. -/
def closestSample (jd : ℚ) (head : EphSample) (rest : List EphSample) : EphSample :=
  rest.foldl (fun prev curr => if |curr.jd - jd| < |prev.jd - jd| then curr else prev) head

/-- `getEphemerisPosition` from `ephemeris-browser.js` lines 118-177:
empty table → `null`; `jd` outside `[data[0].jd, data[last].jd]` → `null`;
otherwise interpolate between the bracketing pair, adding 360° to the
smaller endpoint when they differ by more than 180°, or fall back to the
nearest sample when no bracketing pair exists. -/
def getEphemerisPosition (db : String → List EphSample) (body : String) (jd : ℚ) :
    Option EphPosition :=
  match db body with
  | [] => none
  | d0 :: rest =>
    let data := d0 :: rest
    if jd < d0.jd ∨ jd > (data.getLast (List.cons_ne_nil d0 rest)).jd then
      none
    else
      match findBracket jd data with
      | some (before, after) =>
        let lon1 := before.longitude
        let lon2 := after.longitude
        let adjusted :=
          if |lon2 - lon1| > 180 then
            if lon2 < lon1 then (lon1, lon2 + 360) else (lon1 + 360, lon2)
          else (lon1, lon2)
        some { longitude := normalizeAngle (lerp before.jd adjusted.1 after.jd adjusted.2 jd),
               interpolated := true, beforeJD := some before.jd, afterJD := some after.jd }
      | none =>
        let closest := closestSample jd d0 rest
        some { longitude := closest.longitude, interpolated := false,
               sign := some closest.sign, degInSign := some closest.degInSign }

/-- C8: for a non-empty loaded table, a `jd` strictly below every sample's
`jd` (in particular the minimum) or strictly above every sample's `jd`
(in particular the maximum) yields `none` — no extrapolation. -/
theorem getEphemerisPosition_out_of_range (db : String → List EphSample) (body : String)
    (jd : ℚ) (hne : db body ≠ [])
    (hout : (∀ r ∈ db body, jd < r.jd) ∨ (∀ r ∈ db body, r.jd < jd)) :
    getEphemerisPosition db body jd = none := by
  rcases hd : db body with _ | ⟨d0, rest⟩
  · exact absurd hd hne
  · rw [hd] at hout
    rw [getEphemerisPosition, hd]
    have : jd < d0.jd ∨ jd > ((d0 :: rest).getLast (List.cons_ne_nil d0 rest)).jd := by
      rcases hout with h | h
      · exact Or.inl (h d0 (List.mem_cons_self d0 rest))
      · exact Or.inr (h _ (List.getLast_mem _))
    simp [this]

/-- A two-sample table used as a concrete witness input. -/
def witnessTable : String → List EphSample := fun body =>
  if body = "Sun" then
    [{ jd := 0, longitude := 10, sign := "Aries", degInSign := 10, date := "d0" },
     { jd := 10, longitude := 20, sign := "Aries", degInSign := 20, date := "d1" }]
  else []

/-- Witness for C8: `jd = 11` is strictly above the Sun table's maximum
`jd = 10`, and the lookup returns `none`. -/
theorem getEphemerisPosition_out_of_range_witness :
    getEphemerisPosition witnessTable "Sun" 11 = none :=
  getEphemerisPosition_out_of_range witnessTable "Sun" 11
    (by simp [witnessTable])
    (Or.inr (by norm_num [witnessTable]))

/-- C3: whenever the range guards pass and the bracketing pair's
longitudes differ by more than 180°, `getEphemerisPosition` adds 360° to
the smaller endpoint, linearly interpolates in `jd`, and normalizes the
result back into `[0, 360)`. -/
theorem getEphemerisPosition_wraparound (db : String → List EphSample) (body : String)
    (jd : ℚ) (d0 : EphSample) (rest : List EphSample) (hdata : db body = d0 :: rest)
    (hlo : ¬ jd < d0.jd)
    (hhi : ¬ jd > ((d0 :: rest).getLast (List.cons_ne_nil d0 rest)).jd)
    (before after : EphSample) (hbr : findBracket jd (d0 :: rest) = some (before, after))
    (hgap : |after.longitude - before.longitude| > 180) :
    getEphemerisPosition db body jd
      = some { longitude := normalizeAngle (lerp before.jd
                 (if after.longitude < before.longitude then before.longitude
                   else before.longitude + 360)
                 after.jd
                 (if after.longitude < before.longitude then after.longitude + 360
                   else after.longitude) jd),
               interpolated := true, beforeJD := some before.jd,
               afterJD := some after.jd } := by
  simp only [getEphemerisPosition, hdata]
  rw [if_neg (not_or.mpr ⟨hlo, hhi⟩)]
  simp only [hbr, gt_iff_lt]
  rw [if_pos hgap]
  by_cases hlt : after.longitude < before.longitude <;> simp [hlt]

/-- First sample of the wraparound example: `(jd=0, lon=350)`. -/
def wrapS0 : EphSample :=
  { jd := 0, longitude := 350, sign := "Pisces", degInSign := 20, date := "d0" }

/-- Second sample of the wraparound example: `(jd=10, lon=10)`. -/
def wrapS1 : EphSample :=
  { jd := 10, longitude := 10, sign := "Aries", degInSign := 10, date := "d1" }

/-- A table holding the two samples `(jd=0, lon=350)` and `(jd=10, lon=10)`
of the wraparound example. -/
def wrapTable : String → List EphSample := fun body =>
  if body = "Moon" then [wrapS0, wrapS1] else []

/-- Witness for C3: with samples `(0, 350°)` and `(10, 10°)`, the lookup at
`jd = 5` interpolates `350 → 370` and normalizes to exactly `0°`, not 180°. -/
theorem getEphemerisPosition_wraparound_witness :
    getEphemerisPosition wrapTable "Moon" 5
      = some { longitude := normalizeAngle (lerp 0
                 (if (10 : ℚ) < 350 then (350 : ℚ) else 350 + 360) 10
                 (if (10 : ℚ) < 350 then (10 : ℚ) + 360 else 10) 5),
               interpolated := true, beforeJD := some 0, afterJD := some 10 }
      ∧ normalizeAngle (lerp 0 350 10 370 5) = 0 ∧ (0 : ℚ) ≠ 180 := by
  refine ⟨?_, by norm_num [normalizeAngle, jsMod, truncQ, lerp], by norm_num⟩
  have hlast : ∀ h, List.getLast [wrapS0, wrapS1] h = wrapS1 := fun _ => rfl
  have h0 := getEphemerisPosition_wraparound wrapTable "Moon" 5 wrapS0 [wrapS1]
    (by simp [wrapTable]) (by norm_num [wrapS0]) (by rw [hlast]; norm_num [wrapS1])
    wrapS0 wrapS1 (by norm_num [findBracket, wrapS0, wrapS1]) (by norm_num [wrapS0, wrapS1])
  simpa [wrapS0, wrapS1] using h0

/-- The fixed body list of `getAllEphemerisPositions`
(`ephemeris-browser.js` line 185). -/
def EPHEMERIS_BODIES : List String :=
  ["Sun", "Moon", "Mercury", "Venus", "Mars", "Jupiter", "Saturn", "Uranus", "Neptune", "Pluto"]

/-- `getAllEphemerisPositions` from `ephemeris-browser.js` lines 184-205:
the Moon is skipped (its CSV data is noted as corrupted), and a body whose
lookup returns `null` is silently dropped from the result. -/
def getAllEphemerisPositions (db : String → List EphSample) (jd : ℚ) :
    List (String × EphPosition) :=
  EPHEMERIS_BODIES.filterMap fun body =>
    if body = "Moon" then none
    else (getEphemerisPosition db body jd).map fun pos => (body, pos)

/-- The availability record of `checkEphemerisAvailability`
(`ephemeris-browser.js` lines 212-232). -/
structure EphAvailability where
  available : Bool
  minJD : Option ℚ := none
  maxJD : Option ℚ := none
  minDate : Option String := none
  maxDate : Option String := none
  reason : Option String := none

/-- `checkEphemerisAvailability` from `ephemeris-browser.js`: coverage is
judged against the SUN's table alone. -/
def checkEphemerisAvailability (db : String → List EphSample) (jd : ℚ) : EphAvailability :=
  match db "Sun" with
  | [] => { available := false, reason := some "No ephemeris data loaded" }
  | d0 :: rest =>
    let lastS := (d0 :: rest).getLast (List.cons_ne_nil d0 rest)
    { available := decide (jd ≥ d0.jd ∧ jd ≤ lastS.jd),
      minJD := some d0.jd, maxJD := some lastS.jd,
      minDate := some d0.date, maxDate := some lastS.date }

/-- The planet-composition core of `calculateBirthChart`
(`calculator-calibrated.js` lines 291-458), projected onto the list of
`(planet, longitude)` pairs present in the returned chart: the
availability check (Sun-table based) either throws (`.error`) or the chart
is assembled from the ephemeris positions minus the inner planets and
Moon, plus the inner planets recomputed by `calculateInnerPlanet`
(`inner-planets-calculator.js`, not among the analysed sources — abstracted
as the `innerCalc` parameter, dropped when it returns `none` exactly as
the source's `if (calc)` does), plus the Moon from `calculateMoonPosition`
(abstracted as `moonLongitude`, which the source always obtains). House
assignment, zodiac decoration and metadata are omitted: they add fields to
each entry but never add or remove a planet. -/
def calculateBirthChartPlanets (db : String → List EphSample)
    (innerCalc : String → ℚ → Option ℚ) (moonLongitude : ℚ → ℚ) (jd : ℚ) :
    Except String (List (String × ℚ)) :=
  let availability := checkEphemerisAvailability db jd
  if availability.available then
    let ephemerisPositions := getAllEphemerisPositions db jd
    let outer := (ephemerisPositions.filter fun p =>
        !(["Mercury", "Venus", "Mars", "Moon"].contains p.1)).map
      fun p => (p.1, p.2.longitude)
    let inner := ["Mercury", "Venus", "Mars"].filterMap fun name =>
      (innerCalc name jd).map fun l => (name, l)
    Except.ok (outer ++ inner ++ [("Moon", moonLongitude jd)])
  else
    Except.error "Ephemeris data not available for this date."

/-- C2 counterexample: with a database whose Sun table covers `jd = 5` but
whose Jupiter…Pluto tables are empty, `calculateBirthChart` raises no
error and returns a chart that silently lacks Pluto (and Jupiter, Saturn,
Uranus, Neptune): a partial chart. -/
theorem calculateBirthChart_returns_partial_chart :
    calculateBirthChartPlanets witnessTable (fun _ _ => some 7) (fun _ => 9) 5
        = Except.ok [("Sun", 15), ("Mercury", 7), ("Venus", 7), ("Mars", 7), ("Moon", 9)]
      ∧ "Pluto" ∉ ["Sun", "Mercury", "Venus", "Mars", "Moon"] := by
  have hOther : ∀ b, ¬ b = "Sun" → getEphemerisPosition witnessTable b 5 = none := by
    intro b hb
    simp [getEphemerisPosition, witnessTable, hb]
  have hSun : getEphemerisPosition witnessTable "Sun" 5
      = some { longitude := 15, interpolated := true, beforeJD := some 0, afterJD := some 10 } := by
    simp only [getEphemerisPosition, witnessTable, if_pos rfl]
    norm_num [findBracket, normalizeAngle, jsMod, truncQ, lerp]
  constructor
  · simp only [calculateBirthChartPlanets, checkEphemerisAvailability, witnessTable,
      if_pos rfl, getAllEphemerisPositions, EPHEMERIS_BODIES, List.filterMap_cons, hSun,
      hOther "Mercury" (by simp), hOther "Venus" (by simp), hOther "Mars" (by simp),
      hOther "Jupiter" (by simp), hOther "Saturn" (by simp), hOther "Uranus" (by simp),
      hOther "Neptune" (by simp), hOther "Pluto" (by simp)]
    simp
    norm_num
  · simp

/-- C2 amended: when `calculateBirthChart` returns a chart at all, that
chart always contains the Moon, every body of the ephemeris-only group
whose own lookup succeeded, and every inner planet whose recomputation
succeeded — but nothing guarantees the ephemeris-only bodies beyond the
Sun-table availability check, so bodies whose lookup fails are silently
omitted (see the counterexample). -/
theorem calculateBirthChartPlanets_ok_contains (db : String → List EphSample)
    (innerCalc : String → ℚ → Option ℚ) (moonLongitude : ℚ → ℚ) (jd : ℚ)
    (ps : List (String × ℚ))
    (hok : calculateBirthChartPlanets db innerCalc moonLongitude jd = Except.ok ps) :
    "Moon" ∈ ps.map Prod.fst
      ∧ (∀ b ∈ ["Sun", "Jupiter", "Saturn", "Uranus", "Neptune", "Pluto"],
          (getEphemerisPosition db b jd).isSome → b ∈ ps.map Prod.fst)
      ∧ (∀ b ∈ ["Mercury", "Venus", "Mars"],
          (innerCalc b jd).isSome → b ∈ ps.map Prod.fst) := by
  simp only [calculateBirthChartPlanets] at hok
  by_cases hav : (checkEphemerisAvailability db jd).available
  · rw [if_pos hav] at hok
    injection hok with hok
    subst hok
    refine ⟨by simp, ?_, ?_⟩
    · intro b hb hsome
      obtain ⟨pos, hpos⟩ := Option.isSome_iff_exists.mp hsome
      have hmem : (b, pos) ∈ getAllEphemerisPositions db jd := by
        rw [getAllEphemerisPositions]
        refine List.mem_filterMap.mpr ⟨b, ?_, ?_⟩
        · fin_cases hb <;> simp [EPHEMERIS_BODIES]
        · fin_cases hb <;> simp_all
      simp only [List.map_append, List.mem_append, List.map_map]
      refine Or.inl (Or.inl ?_)
      refine List.mem_map.mpr ⟨(b, pos), List.mem_filter.mpr ⟨hmem, ?_⟩, rfl⟩
      fin_cases hb <;> simp
    · intro b hb hsome
      obtain ⟨l, hl⟩ := Option.isSome_iff_exists.mp hsome
      simp only [List.map_append, List.mem_append, List.map_map]
      refine Or.inl (Or.inr ?_)
      refine List.mem_map.mpr ⟨(b, l), List.mem_filterMap.mpr ⟨b, ?_, ?_⟩, rfl⟩
      · fin_cases hb <;> simp
      · simp [hl]
  · rw [if_neg hav] at hok
    exact absurd hok (by simp)

/-- Witness for C2 (amended): applying the theorem to the concrete chart
of the Sun-only database shows Moon and Sun are present. -/
theorem calculateBirthChartPlanets_ok_contains_witness :
    "Moon" ∈ ([("Sun", (15 : ℚ)), ("Mercury", 7), ("Venus", 7), ("Mars", 7),
        ("Moon", 9)].map Prod.fst)
      ∧ (∀ b ∈ ["Sun", "Jupiter", "Saturn", "Uranus", "Neptune", "Pluto"],
          (getEphemerisPosition witnessTable b 5).isSome →
            b ∈ ([("Sun", (15 : ℚ)), ("Mercury", 7), ("Venus", 7), ("Mars", 7),
                ("Moon", 9)].map Prod.fst))
      ∧ (∀ b ∈ ["Mercury", "Venus", "Mars"],
          ((fun (_ : String) (_ : ℚ) => some (7 : ℚ)) b 5).isSome →
            b ∈ ([("Sun", (15 : ℚ)), ("Mercury", 7), ("Venus", 7), ("Mars", 7),
                ("Moon", 9)].map Prod.fst)) := by
  refine calculateBirthChartPlanets_ok_contains witnessTable (fun _ _ => some 7) (fun _ => 9) 5 _ ?_
  have hOther : ∀ b, ¬ b = "Sun" → getEphemerisPosition witnessTable b 5 = none := by
    intro b hb
    simp [getEphemerisPosition, witnessTable, hb]
  have hSun : getEphemerisPosition witnessTable "Sun" 5
      = some { longitude := 15, interpolated := true, beforeJD := some 0, afterJD := some 10 } := by
    simp only [getEphemerisPosition, witnessTable, if_pos rfl]
    norm_num [findBracket, normalizeAngle, jsMod, truncQ, lerp]
  simp only [calculateBirthChartPlanets, checkEphemerisAvailability, witnessTable,
    if_pos rfl, getAllEphemerisPositions, EPHEMERIS_BODIES, List.filterMap_cons, hSun,
    hOther "Mercury" (by simp), hOther "Venus" (by simp), hOther "Mars" (by simp),
    hOther "Jupiter" (by simp), hOther "Saturn" (by simp), hOther "Uranus" (by simp),
    hOther "Neptune" (by simp), hOther "Pluto" (by simp)]
  simp
  norm_num

/-- The record returned by `julianDayToDate` (`src/julianDay.js` lines
97-104); every field is an integer (`Math.floor` outputs). -/
structure DateParts where
  year : ℤ
  month : ℤ
  day : ℤ
  hour : ℤ
  minute : ℤ
  second : ℤ
  deriving DecidableEq, Repr

/-- `dateToJulianDay` from `src/julianDay.js` lines 20-42 (Meeus
Gregorian-calendar algorithm), over exact rationals. -/
def dateToJulianDay (year month day hour minute second : ℚ) : ℚ :=
  let decimalDay := day + (hour + (minute + second / 60) / 60) / 24
  let y := if month ≤ 2 then year - 1 else year
  let m := if month ≤ 2 then month + 12 else month
  let A := (⌊y / 100⌋ : ℤ)
  let B := 2 - (A : ℚ) + ((⌊(A : ℚ) / 4⌋ : ℤ) : ℚ)
  ((⌊(365.25 : ℚ) * (y + 4716)⌋ : ℤ) : ℚ) + ((⌊(30.6001 : ℚ) * (m + 1)⌋ : ℤ) : ℚ)
    + decimalDay + B - 1524.5

/-- `julianDayToDate` from `src/julianDay.js` lines 73-105, over exact
rationals. -/
def julianDayToDate (jd : ℚ) : DateParts :=
  let Z : ℤ := ⌊jd + 0.5⌋
  let F : ℚ := (jd + 0.5) - (Z : ℚ)
  let A : ℤ :=
    if Z ≥ 2299161 then
      Z + 1 + ⌊(((Z : ℚ) - 1867216.25) / 36524.25)⌋
        - ⌊((⌊(((Z : ℚ) - 1867216.25) / 36524.25)⌋ : ℚ) / 4)⌋
    else Z
  let B : ℤ := A + 1524
  let C : ℤ := ⌊(((B : ℚ) - 122.1) / 365.25)⌋
  let D : ℤ := ⌊((365.25 : ℚ) * (C : ℚ))⌋
  let E : ℤ := ⌊(((B : ℚ) - (D : ℚ)) / 30.6001)⌋
  let day : ℚ := (B : ℚ) - (D : ℚ) - ((⌊((30.6001 : ℚ) * (E : ℚ))⌋ : ℤ) : ℚ) + F
  let month : ℤ := if E < 14 then E - 1 else E - 13
  let year : ℤ := if month > 2 then C - 4716 else C - 4715
  let decimalDay : ℚ := day - (⌊day⌋ : ℚ)
  let hours : ℚ := decimalDay * 24
  let minutes : ℚ := (hours - (⌊hours⌋ : ℚ)) * 60
  let seconds : ℚ := (minutes - (⌊minutes⌋ : ℚ)) * 60
  { year := year, month := month, day := ⌊day⌋,
    hour := ⌊hours⌋, minute := ⌊minutes⌋, second := ⌊seconds⌋ }

/-- Gregorian month length; this is C5's domain of valid calendar dates,
not code of the repository. -/
def daysInMonth (y m : ℤ) : ℤ :=
  if m = 2 then
    (if y % 4 = 0 ∧ (y % 100 ≠ 0 ∨ y % 400 = 0) then 29 else 28)
  else if m = 4 ∨ m = 6 ∨ m = 9 ∨ m = 11 then 30 else 31

/-- Floor of an integer fraction as exact integer division. -/
theorem floor_ratCast_div (a b : ℤ) (hb : 0 < b) : ⌊(a : ℚ) / (b : ℚ)⌋ = a / b := by
  lift b to ℕ using hb.le with n
  exact_mod_cast Rat.floor_intCast_div_natCast a n

/-- Meeus inverse, step 1: the Gregorian-century correction `alpha`
of `julianDayToDate` equals `y'/100 - 4` on the 1600-2400 domain
(`y'` the Meeus-adjusted year, `H` the month offset `⌊30.6001(m'+1)⌋`,
`d` the day; the 488 edge case is 29 February of a leap year). -/
theorem meeusAlphaEq (y' d H G A0 B0 Z alpha : ℤ)
    (hy : 1599 ≤ y' ∧ y' ≤ 2400) (hd : 1 ≤ d ∧ d ≤ 31)
    (hH : 122 ≤ H ∧ H ≤ 459)
    (hHd : 123 ≤ H + d ∧ (H + d ≤ 487 ∨ (H + d = 488
      ∧ (y' + 1) % 4 = 0 ∧ ((y' + 1) % 100 ≠ 0 ∨ (y' + 1) % 400 = 0))))
    (hG : G = 1461 * (y' + 4716) / 4)
    (hA0 : A0 = y' / 100)
    (hB0 : B0 = 2 - A0 + A0 / 4)
    (hZ : Z = G + H + d + B0 - 1524)
    (halpha : alpha = (4 * Z - 7468865) / 146097) :
    alpha = A0 - 4 := by
  obtain ⟨hlo, hcases⟩ := hHd
  obtain ⟨c100, r100, hdec, hr0, hr1, hc0, hc1⟩ :
      ∃ c r, y' = 100 * c + r ∧ 0 ≤ r ∧ r < 100 ∧ 15 ≤ c ∧ c ≤ 24 :=
    ⟨y' / 100, y' % 100, by omega, by omega, by omega, by omega, by omega⟩
  subst hdec
  rcases hcases with hcase | ⟨hcase, hm4, hmc⟩
  · interval_cases c100 <;> omega
  · have hr4 : r100 % 4 = 3 := by omega
    rcases eq_or_ne r100 99 with h99 | h99
    · subst h99
      have hc4 : (c100 + 1) % 4 = 0 := by omega
      clear hm4 hmc
      interval_cases c100 <;> omega
    · have hr95 : r100 ≤ 95 := by omega
      clear hm4 hmc
      interval_cases c100 <;> omega

/-- Meeus inverse, step 2: with `alpha = A0 - 4` the Gregorian correction
of the inverse cancels the `B` correction of the forward direction:
`B1 = G + H + d`. -/
theorem meeusB1Eq (A0 B0 Z alpha A1 B1 G H d : ℤ)
    (hB0 : B0 = 2 - A0 + A0 / 4)
    (hZ : Z = G + H + d + B0 - 1524)
    (halpha : alpha = A0 - 4)
    (hA1 : A1 = Z + 1 + alpha - alpha / 4)
    (hB1 : B1 = A1 + 1524) : B1 = G + H + d := by
  subst halpha
  omega

/-- Meeus inverse, step 3: the year index `C` recovers `y' + 4716`. -/
theorem meeusYearEq (y' G B1 C1 H d : ℤ) (hy : 1599 ≤ y' ∧ y' ≤ 2400)
    (hHd : 123 ≤ H + d ∧ (H + d ≤ 487 ∨ (H + d = 488 ∧ (y' + 1) % 4 = 0)))
    (hG : G = 1461 * (y' + 4716) / 4)
    (hB1 : B1 = G + H + d)
    (hC1 : C1 = (20 * B1 - 2442) / 7305) : C1 = y' + 4716 := by
  omega

/-- Meeus inverse, step 4: `D = ⌊365.25 C⌋` recovers `G`. -/
theorem meeusDEq (y' G C1 D1 : ℤ) (hG : G = 1461 * (y' + 4716) / 4)
    (hC1v : C1 = y' + 4716) (hD1 : D1 = 1461 * C1 / 4) : D1 = G := by
  omega

/-- Meeus inverse, step 5: the month index `E` recovers `m' + 1`, and the
day offset recovers `d`. -/
theorem meeusMonthDayEq (m' H d BD E1 : ℤ) (hm : 3 ≤ m' ∧ m' ≤ 14)
    (hH : H = 306001 * (m' + 1) / 10000) (hd : 1 ≤ d)
    (hcap : 10000 * (H + d) < 306001 * (m' + 2))
    (hBD : BD = H + d)
    (hE1 : E1 = 10000 * BD / 306001) :
    E1 = m' + 1 ∧ BD - 306001 * E1 / 10000 = d := by
  have hE : E1 = m' + 1 := by omega
  subst hE
  omega

/-- `⌊a/4⌋` over `ℚ` is integer division. -/
theorem floorQuarter (a : ℤ) : ⌊(a : ℚ) / 4⌋ = a / 4 := by
  have h := floor_ratCast_div a 4 (by norm_num)
  norm_num at h
  exact h

/-- `⌊a/100⌋` over `ℚ` is integer division. -/
theorem floorCent (a : ℤ) : ⌊(a : ℚ) / 100⌋ = a / 100 := by
  have h := floor_ratCast_div a 100 (by norm_num)
  norm_num at h
  exact h

/-- The `alpha` floor of `julianDayToDate` as integer division. -/
theorem floorMeeusAlpha (N : ℤ) :
    ⌊((N : ℚ) - 1867216.25) / 36524.25⌋ = (4 * N - 7468865) / 146097 := by
  rw [show ((N : ℚ) - 1867216.25) / 36524.25
      = ((4 * N - 7468865 : ℤ) : ℚ) / ((146097 : ℤ) : ℚ) by push_cast; ring]
  exact floor_ratCast_div _ _ (by norm_num)

/-- The `C` floor of `julianDayToDate` as integer division. -/
theorem floorMeeusC (B : ℤ) :
    ⌊((B : ℚ) - 122.1) / 365.25⌋ = (20 * B - 2442) / 7305 := by
  rw [show ((B : ℚ) - 122.1) / 365.25
      = ((20 * B - 2442 : ℤ) : ℚ) / ((7305 : ℤ) : ℚ) by push_cast; ring]
  exact floor_ratCast_div _ _ (by norm_num)

/-- The `D` floor of `julianDayToDate` as integer division. -/
theorem floorMeeusD (C : ℤ) :
    ⌊(365.25 : ℚ) * (C : ℚ)⌋ = 1461 * C / 4 := by
  rw [show (365.25 : ℚ) * (C : ℚ) = ((1461 * C : ℤ) : ℚ) / ((4 : ℤ) : ℚ) by push_cast; ring]
  exact floor_ratCast_div _ _ (by norm_num)

/-- The `E` floor of `julianDayToDate` as integer division. -/
theorem floorMeeusE (B D : ℤ) :
    ⌊((B : ℚ) - (D : ℚ)) / 30.6001⌋ = 10000 * (B - D) / 306001 := by
  rw [show ((B : ℚ) - (D : ℚ)) / 30.6001
      = ((10000 * (B - D) : ℤ) : ℚ) / ((306001 : ℤ) : ℚ) by push_cast; ring]
  exact floor_ratCast_div _ _ (by norm_num)

/-- The day-offset floor `⌊30.6001·E⌋` of `julianDayToDate` as integer
division. -/
theorem floorMeeusK (E : ℤ) :
    ⌊(30.6001 : ℚ) * (E : ℚ)⌋ = 306001 * E / 10000 := by
  rw [show (30.6001 : ℚ) * (E : ℚ) = ((306001 * E : ℤ) : ℚ) / ((10000 : ℤ) : ℚ) by
    push_cast; ring]
  exact floor_ratCast_div _ _ (by norm_num)

/-- The year floor `⌊365.25 (y'+4716)⌋` of `dateToJulianDay` as integer
division. -/
theorem floorMeeusG (a : ℤ) :
    ⌊(365.25 : ℚ) * ((a : ℚ) + 4716)⌋ = 1461 * (a + 4716) / 4 := by
  rw [show (365.25 : ℚ) * ((a : ℚ) + 4716)
      = ((1461 * (a + 4716) : ℤ) : ℚ) / ((4 : ℤ) : ℚ) by push_cast; ring]
  exact floor_ratCast_div _ _ (by norm_num)

/-- The month floor `⌊30.6001 (m'+1)⌋` of `dateToJulianDay` as integer
division. -/
theorem floorMeeusH (a : ℤ) :
    ⌊(30.6001 : ℚ) * ((a : ℚ) + 1)⌋ = 306001 * (a + 1) / 10000 := by
  rw [show (30.6001 : ℚ) * ((a : ℚ) + 1)
      = ((306001 * (a + 1) : ℤ) : ℚ) / ((10000 : ℤ) : ℚ) by push_cast; ring]
  exact floor_ratCast_div _ _ (by norm_num)

/-- Meeus inverse core: `julianDayToDate` applied to an integer Julian day
number `N` (of a date in 1600-2400) plus a civil-time fraction `tf − 1/2`
recovers the calendar date. -/
theorem julianDayToDate_core (y' m' d h mi s yy mm N : ℤ) (tf : ℚ)
    (hy : 1599 ≤ y' ∧ y' ≤ 2400) (hm : 3 ≤ m' ∧ m' ≤ 14) (hd : 1 ≤ d ∧ d ≤ 31)
    (hcap : 10000 * (306001 * (m' + 1) / 10000 + d) < 306001 * (m' + 2))
    (hHd : 306001 * (m' + 1) / 10000 + d ≤ 487
      ∨ (306001 * (m' + 1) / 10000 + d = 488
        ∧ (y' + 1) % 4 = 0 ∧ ((y' + 1) % 100 ≠ 0 ∨ (y' + 1) % 400 = 0)))
    (hh : 0 ≤ h ∧ h ≤ 23) (hmi : 0 ≤ mi ∧ mi ≤ 59) (hs : 0 ≤ s ∧ s ≤ 59)
    (hyy : yy = if 13 ≤ m' then y' + 1 else y')
    (hmm : mm = if 13 ≤ m' then m' - 12 else m')
    (hNdef : N = 1461 * (y' + 4716) / 4 + 306001 * (m' + 1) / 10000
      + (2 - y' / 100 + y' / 100 / 4) + d - 1524)
    (htf : tf = ((h : ℚ) + ((mi : ℚ) + (s : ℚ) / 60) / 60) / 24) :
    julianDayToDate ((N : ℚ) + tf - 1 / 2)
      = { year := yy, month := mm, day := d, hour := h, minute := mi, second := s } := by
  have hsQ : (s : ℚ) < 60 := by exact_mod_cast (by omega : s < 60)
  have hmiQ : (mi : ℚ) ≤ 59 := by exact_mod_cast hmi.2
  have hhQ : (h : ℚ) ≤ 23 := by exact_mod_cast hh.2
  have hmiQ0 : 0 ≤ (mi : ℚ) := by exact_mod_cast hmi.1
  have hsQ0 : 0 ≤ (s : ℚ) := by exact_mod_cast hs.1
  have hhQ0 : 0 ≤ (h : ℚ) := by exact_mod_cast hh.1
  have htf0 : 0 ≤ tf := by
    rw [htf]
    apply div_nonneg _ (by norm_num)
    apply add_nonneg hhQ0
    apply div_nonneg _ (by norm_num)
    exact add_nonneg hmiQ0 (div_nonneg hsQ0 (by norm_num))
  have hinner1 : ((mi : ℚ) + (s : ℚ) / 60) / 60 < 1 := by
    rw [div_lt_one (by norm_num : (0 : ℚ) < 60)]
    have i1 : (s : ℚ) / 60 < 1 := (div_lt_one (by norm_num : (0 : ℚ) < 60)).mpr hsQ
    linarith
  have hinner0 : 0 ≤ ((mi : ℚ) + (s : ℚ) / 60) / 60 := by positivity
  have htf1 : tf < 1 := by
    rw [htf, div_lt_one (by norm_num : (0 : ℚ) < 24)]
    linarith
  have hfloor_tf : ⌊tf⌋ = 0 := Int.floor_eq_zero_iff.mpr ⟨htf0, htf1⟩
  simp only [julianDayToDate]
  rw [show (N : ℚ) + tf - 1 / 2 + 0.5 = (N : ℚ) + tf by norm_num]
  rw [show ⌊(N : ℚ) + tf⌋ = N by rw [Int.floor_int_add, hfloor_tf, add_zero]]
  rw [show (N : ℚ) + tf - (N : ℚ) = tf by ring]
  have hN : N ≥ 2299161 := by omega
  rw [if_pos hN]
  rw [floorMeeusAlpha N]
  set alphaI : ℤ := (4 * N - 7468865) / 146097 with halphaIh
  rw [floorQuarter alphaI]
  set B1 : ℤ := N + 1 + alphaI - alphaI / 4 + 1524 with hB1h
  rw [floorMeeusC B1]
  set C1 : ℤ := (20 * B1 - 2442) / 7305 with hC1h
  rw [floorMeeusD C1]
  set D1 : ℤ := 1461 * C1 / 4 with hD1h
  rw [floorMeeusE B1 D1]
  set E1 : ℤ := 10000 * (B1 - D1) / 306001 with hE1h
  rw [floorMeeusK E1]
  set K : ℤ := 306001 * E1 / 10000 with hKh
  have halphaV : alphaI = y' / 100 - 4 :=
    meeusAlphaEq y' d (306001 * (m' + 1) / 10000) (1461 * (y' + 4716) / 4) (y' / 100)
      (2 - y' / 100 + y' / 100 / 4) N alphaI hy hd (by omega) ⟨by omega, hHd⟩ rfl rfl rfl
      (by omega) halphaIh
  have hYdisj : 306001 * (m' + 1) / 10000 + d ≤ 487
      ∨ (306001 * (m' + 1) / 10000 + d = 488 ∧ (y' + 1) % 4 = 0) := by
    rcases hHd with hc | ⟨h1, h2, h3⟩
    · exact Or.inl hc
    · exact Or.inr ⟨h1, h2⟩
  have hB1V : B1 = 1461 * (y' + 4716) / 4 + 306001 * (m' + 1) / 10000 + d :=
    meeusB1Eq (y' / 100) (2 - y' / 100 + y' / 100 / 4) N alphaI
      (N + 1 + alphaI - alphaI / 4) B1 (1461 * (y' + 4716) / 4) (306001 * (m' + 1) / 10000) d
      rfl (by omega) halphaV rfl hB1h
  have hC1V : C1 = y' + 4716 :=
    meeusYearEq y' (1461 * (y' + 4716) / 4) B1 C1 (306001 * (m' + 1) / 10000) d hy
      ⟨by omega, hYdisj⟩ rfl hB1V hC1h
  have hD1V : D1 = 1461 * (y' + 4716) / 4 := by rw [hD1h, hC1V]
  have hBD : B1 - D1 = 306001 * (m' + 1) / 10000 + d := by omega
  obtain ⟨hE1V, hdayV⟩ :=
    meeusMonthDayEq m' (306001 * (m' + 1) / 10000) d (B1 - D1) E1 hm rfl hd.1 hcap hBD hE1h
  have hKV : K = 306001 * (m' + 1) / 10000 := by rw [hKh, hE1V]
  have hdint : B1 - D1 - K = d := by omega
  rw [show (B1 : ℚ) - (D1 : ℚ) - (K : ℚ) + tf = ((B1 - D1 - K : ℤ) : ℚ) + tf by push_cast; ring]
  rw [hdint]
  rw [Int.floor_int_add d tf, hfloor_tf, add_zero]
  rw [show ((d : ℤ) : ℚ) + tf - ((d : ℤ) : ℚ) = tf by ring]
  rw [show tf * 24 = (h : ℚ) + ((mi : ℚ) + (s : ℚ) / 60) / 60 by rw [htf]; ring]
  have hfloor_inner : ⌊((mi : ℚ) + (s : ℚ) / 60) / 60⌋ = 0 :=
    Int.floor_eq_zero_iff.mpr ⟨hinner0, hinner1⟩
  rw [Int.floor_int_add h, hfloor_inner, add_zero]
  rw [show (h : ℚ) + ((mi : ℚ) + (s : ℚ) / 60) / 60 - ((h : ℤ) : ℚ)
    = ((mi : ℚ) + (s : ℚ) / 60) / 60 by ring]
  rw [show (((mi : ℚ) + (s : ℚ) / 60) / 60) * 60 = (mi : ℚ) + (s : ℚ) / 60 by ring]
  have hfloor_s60 : ⌊(s : ℚ) / 60⌋ = 0 := by
    apply Int.floor_eq_zero_iff.mpr
    constructor
    · positivity
    · exact (div_lt_one (by norm_num : (0 : ℚ) < 60)).mpr hsQ
  rw [Int.floor_int_add mi, hfloor_s60, add_zero]
  rw [show (mi : ℚ) + (s : ℚ) / 60 - ((mi : ℤ) : ℚ) = (s : ℚ) / 60 by ring]
  rw [show ((s : ℚ) / 60) * 60 = (s : ℚ) by ring]
  rw [Int.floor_intCast s]
  rw [hE1V, hC1V]
  rcases lt_or_ge m' 13 with h13 | h13
  · rw [if_neg (show ¬ 13 ≤ m' by omega)] at hyy hmm
    rw [if_pos (show m' + 1 < 14 by omega), if_pos (show m' + 1 - 1 > 2 by omega)]
    simp only [DateParts.mk.injEq]
    exact ⟨by omega, by omega, trivial, trivial, trivial, trivial⟩
  · rw [if_pos (show 13 ≤ m' from h13)] at hyy hmm
    rw [if_neg (show ¬ m' + 1 < 14 by omega), if_neg (show ¬ m' + 1 - 13 > 2 by omega)]
    simp only [DateParts.mk.injEq]
    exact ⟨by omega, by omega, trivial, trivial, trivial, trivial⟩

/-- C5: calendar round-trip. For every valid Gregorian date with year in
1600-2400 and civil time fields, `julianDayToDate (dateToJulianDay …)`
reproduces the date EXACTLY (error 0 ≤ 1 second) in exact rational
arithmetic. -/
theorem julianDay_roundtrip (y m d h mi s : ℤ)
    (hy : 1600 ≤ y ∧ y ≤ 2400) (hm : 1 ≤ m ∧ m ≤ 12)
    (hd : 1 ≤ d ∧ d ≤ daysInMonth y m)
    (hh : 0 ≤ h ∧ h ≤ 23) (hmi : 0 ≤ mi ∧ mi ≤ 59) (hs : 0 ≤ s ∧ s ≤ 59) :
    julianDayToDate (dateToJulianDay y m d h mi s)
      = { year := y, month := m, day := d, hour := h, minute := mi, second := s } := by
  have hdim : daysInMonth y m ≤ 31 := by
    rw [daysInMonth]
    split
    · split <;> omega
    · split <;> omega
  have hd31 : d ≤ 31 := by omega
  obtain ⟨hm1, hm12⟩ := hm
  by_cases hm2 : m ≤ 2
  · -- January / February: y' = y - 1, m' = m + 12
    have hcap : 10000 * (306001 * (m + 12 + 1) / 10000 + d) < 306001 * (m + 12 + 2) := by
      interval_cases m
      · simp [daysInMonth] at hd
        omega
      · simp [daysInMonth] at hd
        split at hd <;> omega
    have hHd : 306001 * (m + 12 + 1) / 10000 + d ≤ 487
        ∨ (306001 * (m + 12 + 1) / 10000 + d = 488
          ∧ (y - 1 + 1) % 4 = 0 ∧ ((y - 1 + 1) % 100 ≠ 0 ∨ (y - 1 + 1) % 400 = 0)) := by
      interval_cases m
      · exact Or.inl (by omega)
      · simp [daysInMonth] at hd
        split at hd
        · rename_i hleap
          by_cases hd29 : d ≤ 28
          · exact Or.inl (by omega)
          · exact Or.inr ⟨by omega, by omega, by omega⟩
        · exact Or.inl (by omega)
    have hcore := julianDayToDate_core (y - 1) (m + 12) d h mi s y m
      (1461 * (y - 1 + 4716) / 4 + 306001 * (m + 12 + 1) / 10000
        + (2 - (y - 1) / 100 + (y - 1) / 100 / 4) + d - 1524)
      (((h : ℚ) + ((mi : ℚ) + (s : ℚ) / 60) / 60) / 24)
      ⟨by omega, by omega⟩ ⟨by omega, by omega⟩ ⟨hd.1, hd31⟩ hcap hHd hh hmi hs
      (by rw [if_pos (by omega : (13 : ℤ) ≤ m + 12)]; omega)
      (by rw [if_pos (by omega : (13 : ℤ) ≤ m + 12)]; omega)
      rfl rfl
    simp only [dateToJulianDay]
    rw [if_pos (show (m : ℚ) ≤ 2 by exact_mod_cast hm2),
      if_pos (show (m : ℚ) ≤ 2 by exact_mod_cast hm2)]
    rw [show (y : ℚ) - 1 = ((y - 1 : ℤ) : ℚ) by push_cast; ring]
    rw [show (m : ℚ) + 12 = ((m + 12 : ℤ) : ℚ) by push_cast; ring]
    rw [floorMeeusG (y - 1), floorMeeusH (m + 12), floorCent (y - 1), floorQuarter ((y - 1) / 100)]
    rw [← hcore]
    congr 1
    push_cast
    ring
  · -- March to December: y' = y, m' = m
    have hm3 : 3 ≤ m := by omega
    have hcap : 10000 * (306001 * (m + 1) / 10000 + d) < 306001 * (m + 2) := by
      interval_cases m <;> simp [daysInMonth] at hd <;> omega
    have hHd : 306001 * (m + 1) / 10000 + d ≤ 487
        ∨ (306001 * (m + 1) / 10000 + d = 488
          ∧ (y + 1) % 4 = 0 ∧ ((y + 1) % 100 ≠ 0 ∨ (y + 1) % 400 = 0)) :=
      Or.inl (by omega)
    have hcore := julianDayToDate_core y m d h mi s y m
      (1461 * (y + 4716) / 4 + 306001 * (m + 1) / 10000
        + (2 - y / 100 + y / 100 / 4) + d - 1524)
      (((h : ℚ) + ((mi : ℚ) + (s : ℚ) / 60) / 60) / 24)
      ⟨by omega, by omega⟩ ⟨by omega, by omega⟩ ⟨hd.1, hd31⟩ hcap hHd hh hmi hs
      (by rw [if_neg (by omega : ¬ (13 : ℤ) ≤ m)])
      (by rw [if_neg (by omega : ¬ (13 : ℤ) ≤ m)])
      rfl rfl
    simp only [dateToJulianDay]
    rw [if_neg (show ¬ (m : ℚ) ≤ 2 by exact_mod_cast hm2),
      if_neg (show ¬ (m : ℚ) ≤ 2 by exact_mod_cast hm2)]
    rw [floorMeeusG y, floorMeeusH m, floorCent y, floorQuarter (y / 100)]
    rw [← hcore]
    congr 1
    push_cast
    ring

/-- Witness for C5: the leap-day date 2000-02-29 23:59:59 round-trips
exactly. -/
theorem julianDay_roundtrip_witness :
    julianDayToDate (dateToJulianDay 2000 2 29 23 59 59)
      = { year := 2000, month := 2, day := 29, hour := 23, minute := 59, second := 59 } :=
  julianDay_roundtrip 2000 2 29 23 59 59 (by decide) (by decide) (by decide)
    (by decide) (by decide) (by decide)

/-- On `[0, 360)` the angle normalization is the identity. -/
theorem normalizeAngle_eq_self (x : ℚ) (h0 : 0 ≤ x) (h1 : x < 360) :
    normalizeAngle x = x := by
  have htr : truncQ (x / 360) = 0 := by
    rw [truncQ, if_pos (by positivity)]
    apply Int.floor_eq_zero_iff.mpr
    constructor
    · positivity
    · rw [div_lt_one (by norm_num : (0 : ℚ) < 360)]
      exact h1
  rw [normalizeAngle, jsMod, htr]
  norm_num
  exact h0

/-- The rotated cusp sequence: position `t` steps forward (cyclically)
from the cusp after the unique descent. -/
def rotCusp (c : Fin 12 → ℚ) (k : Fin 12) (t : ℕ) : ℚ :=
  c (k + 1 + (t : Fin 12))

/-- Casting a successor below 11 into `Fin 12` is the `Fin` successor. -/
theorem natCast_succ_fin12 (t : ℕ) (ht : t < 11) :
    ((t + 1 : ℕ) : Fin 12) = ((t : ℕ) : Fin 12) + 1 := by
  apply Fin.ext
  simp [Fin.val_natCast, Fin.val_add]


/-- Stepping fewer than 11 cusps past the descent never returns to it. -/
theorem rot_ne_k (k : Fin 12) (t : ℕ) (ht : t < 11) : k + 1 + (t : Fin 12) ≠ k := by
  have hval : ((t : ℕ) : Fin 12).val = t := by
    rw [Fin.val_natCast]
    omega
  have hfin : ∀ k u : Fin 12, u.val < 11 → k + 1 + u ≠ k := by decide
  exact hfin k _ (by rw [hval]; exact ht)

/-- Eleven steps past the descent lands back on it. -/
theorem rot_eleven (k : Fin 12) : k + 1 + ((11 : ℕ) : Fin 12) = k := by
  revert k
  decide

/-- Every index other than the descent is a proper rotation step. -/
theorem rot_surj (k i : Fin 12) (h : i ≠ k) :
    k + 1 + (((i - (k + 1)).val : ℕ) : Fin 12) = i ∧ (i - (k + 1)).val < 11 := by
  revert h
  revert k i
  decide

/-- The rotation covers the descent at position 11 only. -/
theorem rot_zero (k : Fin 12) : k + 1 + ((0 : ℕ) : Fin 12) = k + 1 := by
  revert k
  decide

/-- One ascent step of the rotated cusp sequence. -/
theorem rotCusp_step (c : Fin 12 → ℚ) (k : Fin 12)
    (hasc : ∀ i : Fin 12, i ≠ k → c i < c (i + 1)) (t : ℕ) (ht : t < 11) :
    rotCusp c k t < rotCusp c k (t + 1) := by
  have h1 : rotCusp c k (t + 1) = c (k + 1 + (t : Fin 12) + 1) := by
    rw [rotCusp, natCast_succ_fin12 t ht, ← add_assoc]
  rw [rotCusp, h1]
  exact hasc _ (rot_ne_k k t ht)

/-- Strict monotonicity of the rotated cusp sequence up to position 11. -/
theorem rotCusp_mono (c : Fin 12 → ℚ) (k : Fin 12)
    (hasc : ∀ i : Fin 12, i ≠ k → c i < c (i + 1)) :
    ∀ t, t ≤ 11 → ∀ s, s < t → rotCusp c k s < rotCusp c k t := by
  intro t
  induction t with
  | zero => omega
  | succ n ih =>
    intro ht s hs
    rcases eq_or_lt_of_le (Nat.lt_succ_iff.mp hs) with rfl | hlt
    · exact rotCusp_step c k hasc s (by omega)
    · exact lt_trans (ih (by omega) s hlt) (rotCusp_step c k hasc n (by omega))

/-- Weak monotonicity of the rotated cusp sequence. -/
theorem rotCusp_mono_le (c : Fin 12 → ℚ) (k : Fin 12)
    (hasc : ∀ i : Fin 12, i ≠ k → c i < c (i + 1)) (s t : ℕ)
    (hst : s ≤ t) (ht : t ≤ 11) : rotCusp c k s ≤ rotCusp c k t := by
  rcases eq_or_lt_of_le hst with rfl | h
  · exact le_refl _
  · exact (rotCusp_mono c k hasc t ht s h).le

/-- Finding the interval containing `lon` in a chain (no monotonicity
needed). -/
theorem chainFind (f : ℕ → ℚ) (lon : ℚ) :
    ∀ n, f 0 ≤ lon → lon < f n → ∃ t, t < n ∧ f t ≤ lon ∧ lon < f (t + 1) := by
  intro n
  induction n with
  | zero => intro h0 h1; exact absurd (lt_of_le_of_lt h0 h1) (lt_irrefl _)
  | succ n ih =>
    intro h0 h1
    by_cases hn : f n ≤ lon
    · exact ⟨n, Nat.lt_succ_self n, hn, h1⟩
    · obtain ⟨t, ht, h2, h3⟩ := ih h0 (not_le.mp hn)
      exact ⟨t, by omega, h2, h3⟩

/-- Position 11 of the rotation is the descent cusp itself. -/
theorem rotCusp_eleven_eq (c : Fin 12 → ℚ) (k : Fin 12) : rotCusp c k 11 = c k := by
  rw [rotCusp, rot_eleven]

/-- Position 0 of the rotation is the cusp after the descent. -/
theorem rotCusp_zero_eq (c : Fin 12 → ℚ) (k : Fin 12) : rotCusp c k 0 = c (k + 1) := by
  rw [rotCusp, rot_zero]

/-- Successor positions of the rotation are `Fin` successors. -/
theorem rotCusp_succ_eq (c : Fin 12 → ℚ) (k : Fin 12) (t : ℕ) (ht : t < 11) :
    rotCusp c k (t + 1) = c (k + 1 + (t : Fin 12) + 1) := by
  rw [rotCusp, natCast_succ_fin12 t ht, ← add_assoc]

/-- Membership test at an ascent index is the half-open interval test. -/
theorem memB_ascent (c : Fin 12 → ℚ) (k : Fin 12)
    (hasc : ∀ i : Fin 12, i ≠ k → c i < c (i + 1)) (i : Fin 12) (hik : i ≠ k) (lon : ℚ) :
    memHouseB (c i) (c (i + 1)) lon = true ↔ (c i ≤ lon ∧ lon < c (i + 1)) := by
  rw [memHouseB, if_pos (hasc i hik)]
  simp

/-- Membership test at the descent index is the wrap-around test. -/
theorem memB_descent (c : Fin 12 → ℚ) (k : Fin 12) (hdesc : c (k + 1) < c k) (lon : ℚ) :
    memHouseB (c k) (c (k + 1)) lon = true ↔ (c k ≤ lon ∨ lon < c (k + 1)) := by
  rw [memHouseB, if_neg (not_lt.mpr hdesc.le)]
  simp

/-- For a strictly-increasing-then-wrap-once cusp circle, every longitude
lies in exactly one cusp interval. -/
theorem houseMem_exists_unique (c : Fin 12 → ℚ) (k : Fin 12)
    (hdesc : c (k + 1) < c k) (hasc : ∀ i : Fin 12, i ≠ k → c i < c (i + 1)) (lon : ℚ) :
    ∃ i : Fin 12, memHouseB (c i) (c (i + 1)) lon = true
      ∧ ∀ j : Fin 12, memHouseB (c j) (c (j + 1)) lon = true → j = i := by
  have hd11 := rotCusp_eleven_eq c k
  have hd0 := rotCusp_zero_eq c k
  by_cases hcase : c k ≤ lon ∨ lon < c (k + 1)
  · refine ⟨k, (memB_descent c k hdesc lon).mpr hcase, ?_⟩
    intro j hj
    by_contra hjk
    obtain ⟨hjeq, hjlt⟩ := rot_surj k j hjk
    set pj := (j - (k + 1)).val with hpj
    have hcj : c j = rotCusp c k pj := by rw [rotCusp, hjeq]
    have hcj1 : c (j + 1) = rotCusp c k (pj + 1) := by
      rw [rotCusp_succ_eq c k pj hjlt, hjeq]
    rw [memB_ascent c k hasc j hjk lon, hcj, hcj1] at hj
    rcases hcase with hc | hc
    · have : lon < rotCusp c k 11 := by
        calc lon < rotCusp c k (pj + 1) := hj.2
        _ ≤ rotCusp c k 11 := rotCusp_mono_le c k hasc _ _ (by omega) (le_refl _)
      rw [hd11] at this
      linarith
    · have : rotCusp c k 0 ≤ lon := by
        calc rotCusp c k 0 ≤ rotCusp c k pj := rotCusp_mono_le c k hasc _ _ (by omega) (by omega)
        _ ≤ lon := hj.1
      rw [hd0] at this
      linarith
  · push_neg at hcase
    obtain ⟨h1, h2⟩ := hcase
    obtain ⟨t, ht, hta, htb⟩ := chainFind (rotCusp c k) lon 11
      (by rw [hd0]; exact h2) (by rw [hd11]; exact h1)
    refine ⟨k + 1 + (t : Fin 12), ?_, ?_⟩
    · rw [memB_ascent c k hasc _ (rot_ne_k k t ht) lon]
      constructor
      · rw [show c (k + 1 + (t : Fin 12)) = rotCusp c k t from rfl]
        exact hta
      · rw [← rotCusp_succ_eq c k t ht]
        exact htb
    · intro j hj
      rcases eq_or_ne j k with heq | hjk
      · exfalso
        rw [heq, memB_descent c k hdesc lon] at hj
        rcases hj with hc | hc
        · linarith
        · linarith
      · obtain ⟨hjeq, hjlt⟩ := rot_surj k j hjk
        set pj := (j - (k + 1)).val with hpj
        have hcj : c j = rotCusp c k pj := by rw [rotCusp, hjeq]
        have hcj1 : c (j + 1) = rotCusp c k (pj + 1) := by
          rw [rotCusp_succ_eq c k pj hjlt, hjeq]
        rw [memB_ascent c k hasc j hjk lon, hcj, hcj1] at hj
        have hpt : pj = t := by
          by_contra hne
          rcases Nat.lt_or_ge pj t with hlt | hge
          · have : lon < rotCusp c k t := by
              calc lon < rotCusp c k (pj + 1) := hj.2
              _ ≤ rotCusp c k t := rotCusp_mono_le c k hasc _ _ (by omega) (by omega)
            linarith
          · have htpj : t < pj := by omega
            have : lon < rotCusp c k pj := by
              calc lon < rotCusp c k (t + 1) := htb
              _ ≤ rotCusp c k pj := rotCusp_mono_le c k hasc _ _ (by omega) (by omega)
            linarith
        rw [← hjeq, hpt]

/-- The linear scan of `getPlanetHouse` returns the first matching index. -/
theorem scanHouses_finds (houses : List House) (lon : ℚ) (i₀ : ℕ) :
    ∀ fuel i, i ≤ i₀ → i₀ < i + fuel →
    memHouseB ((houses.getD i₀ default).longitude)
      ((houses.getD ((i₀ + 1) % houses.length) default).longitude) lon = true →
    (∀ j, i ≤ j → j < i₀ →
      memHouseB ((houses.getD j default).longitude)
        ((houses.getD ((j + 1) % houses.length) default).longitude) lon = false) →
    scanHouses houses lon i fuel = some i₀ := by
  intro fuel
  induction fuel with
  | zero =>
    intro i h1 h2 _ _
    omega
  | succ n ih =>
    intro i h1 h2 hp hmin
    rw [scanHouses]
    rcases eq_or_lt_of_le h1 with rfl | hlt
    · rw [if_pos hp]
    · have hfalse := hmin i (le_refl i) hlt
      rw [if_neg (by rw [hfalse]; exact Bool.false_ne_true)]
      exact ih (i + 1) (by omega) (by omega) hp (fun j hj1 hj2 => hmin j (by omega) hj2)

/-- C4: for a 12-cusp array whose longitudes are strictly increasing in
array order and wrap exactly once (one cyclic descent, at index `k`),
every longitude in `[0, 360)` lies in exactly one cusp interval, and
`getPlanetHouse` returns exactly that house's number `i+1 ∈ 1..12`:
the twelve intervals partition the circle with no gaps and no overlaps. -/
theorem getPlanetHouse_partition (c : Fin 12 → ℚ)
    (hrange : ∀ i : Fin 12, 0 ≤ c i ∧ c i < 360)
    (k : Fin 12) (hdesc : c (k + 1) < c k)
    (hasc : ∀ i : Fin 12, i ≠ k → c i < c (i + 1))
    (lon : ℚ) (hlon0 : 0 ≤ lon) (hlon1 : lon < 360) :
    ∃ i : Fin 12,
      memHouseB (c i) (c (i + 1)) lon = true
      ∧ (∀ j : Fin 12, memHouseB (c j) (c (j + 1)) lon = true → j = i)
      ∧ getPlanetHouse lon
          (List.ofFn fun i : Fin 12 =>
            { cusp := i.1 + 1, longitude := c i, sign := ⌊c i / 30⌋, system := "Porphyry" })
          = i.1 + 1
      ∧ 1 ≤ i.1 + 1 ∧ i.1 + 1 ≤ 12 := by
  obtain ⟨i, hmem, huniq⟩ := houseMem_exists_unique c k hdesc hasc lon
  have hlen : (List.ofFn fun i : Fin 12 =>
      ({ cusp := i.1 + 1, longitude := c i, sign := ⌊c i / 30⌋, system := "Porphyry" }
        : House)).length = 12 := by
    rw [List.length_ofFn]
  have hgetD : ∀ (j : ℕ) (hj : j < 12), (List.ofFn fun i : Fin 12 =>
      ({ cusp := i.1 + 1, longitude := c i, sign := ⌊c i / 30⌋, system := "Porphyry" }
        : House)).getD j default
      = { cusp := j + 1, longitude := c ⟨j, hj⟩, sign := ⌊c ⟨j, hj⟩ / 30⌋,
          system := "Porphyry" } := by
    intro j hj
    rw [List.getD_eq_getElem?_getD, List.getElem?_eq_getElem (by rw [hlen]; omega),
      List.getElem_ofFn]
    rfl
  refine ⟨i, hmem, huniq, ?_, by omega, by omega⟩
  rw [getPlanetHouse]
  rw [normalizeAngle_eq_self lon hlon0 hlon1]
  have hpred : ∀ j : Fin 12,
      memHouseB (((List.ofFn fun i : Fin 12 =>
          ({ cusp := i.1 + 1, longitude := c i, sign := ⌊c i / 30⌋, system := "Porphyry" }
            : House)).getD j.1 default).longitude)
        (((List.ofFn fun i : Fin 12 =>
          ({ cusp := i.1 + 1, longitude := c i, sign := ⌊c i / 30⌋, system := "Porphyry" }
            : House)).getD ((j.1 + 1) % (List.ofFn fun i : Fin 12 =>
          ({ cusp := i.1 + 1, longitude := c i, sign := ⌊c i / 30⌋, system := "Porphyry" }
            : House)).length) default).longitude) lon
      = memHouseB (c j) (c (j + 1)) lon := by
    intro j
    have hj1 : (j.1 + 1) % (List.ofFn fun i : Fin 12 =>
        ({ cusp := i.1 + 1, longitude := c i, sign := ⌊c i / 30⌋, system := "Porphyry" }
          : House)).length = (j + 1 : Fin 12).val := by
      rw [hlen, Fin.val_add]
      rfl
    rw [hgetD j.1 j.2, hj1, hgetD (j + 1 : Fin 12).val (j + 1 : Fin 12).2]
  have hscan : scanHouses (List.ofFn fun i : Fin 12 =>
      ({ cusp := i.1 + 1, longitude := c i, sign := ⌊c i / 30⌋, system := "Porphyry" }
        : House)) lon 0 (List.ofFn fun i : Fin 12 =>
      ({ cusp := i.1 + 1, longitude := c i, sign := ⌊c i / 30⌋, system := "Porphyry" }
        : House)).length = some i.1 := by
    apply scanHouses_finds _ lon i.1 _ 0 (by omega) (by rw [hlen]; exact Nat.lt_of_lt_of_le i.2 (by omega))
    · rw [hpred i]
      exact hmem
    · intro j hj0 hji
      have hj12 : j < 12 := lt_trans hji i.2
      have := hpred ⟨j, hj12⟩
      by_contra hb
      have hb' : memHouseB (c ⟨j, hj12⟩) (c (⟨j, hj12⟩ + 1)) lon = true := by
        rw [← this]
        exact Bool.of_not_eq_false hb
      have := huniq ⟨j, hj12⟩ hb'
      have : j = i.1 := congrArg Fin.val this
      omega
  simp only [hscan]
  rw [hgetD i.1 i.2]

/-- A concrete strictly-increasing-then-wrapping 12-cusp circle (equal
houses from an ascendant of 350°): the single cyclic descent is at index
0 (350° → 20°). -/
def witnessCusps : Fin 12 → ℚ
  | ⟨0, _⟩ => 350
  | ⟨1, _⟩ => 20
  | ⟨2, _⟩ => 50
  | ⟨3, _⟩ => 80
  | ⟨4, _⟩ => 110
  | ⟨5, _⟩ => 140
  | ⟨6, _⟩ => 170
  | ⟨7, _⟩ => 200
  | ⟨8, _⟩ => 230
  | ⟨9, _⟩ => 260
  | ⟨10, _⟩ => 290
  | ⟨11, _⟩ => 320

/-- Witness for C4: the partition theorem applied to the concrete wrapped
cusp circle at longitude 10°. -/
theorem getPlanetHouse_partition_witness :
    ∃ i : Fin 12,
      memHouseB (witnessCusps i) (witnessCusps (i + 1)) 10 = true
      ∧ (∀ j : Fin 12, memHouseB (witnessCusps j) (witnessCusps (j + 1)) 10 = true → j = i)
      ∧ getPlanetHouse 10 (List.ofFn fun i : Fin 12 =>
          { cusp := i.1 + 1, longitude := witnessCusps i, sign := ⌊witnessCusps i / 30⌋,
            system := "Porphyry" }) = i.1 + 1
      ∧ 1 ≤ i.1 + 1 ∧ i.1 + 1 ≤ 12 :=
  getPlanetHouse_partition witnessCusps
    (by intro i; fin_cases i <;> constructor <;> norm_num [witnessCusps])
    0 (by norm_num [witnessCusps, Fin.add_def])
    (by intro i hi; fin_cases i <;> revert hi <;> norm_num [witnessCusps, Fin.add_def])
    10 (by norm_num) (by norm_num)
